import Mathlib

/-!
Verification of the article-generation backend: a shallow embedding of the
AI generation client (`aiClient.js`), the article service, the Express
routers and the seeding logic, with theorems settling the specification
claims about them.

JavaScript strings are modelled as Lean `String`; the character-level
operations (`trim`, `split`, `slice`, `join`) are embedded as structurally
recursive functions over `String.data` so that all of them compute by
kernel reduction.  JavaScript truthiness of a string is emptiness testing;
truthiness of an optional field is presence plus non-emptiness.
-/

/-- JS truthiness of a possibly-absent string field (`undefined`, `null`
and `""` are falsy). -/
def optTruthy : Option String → Bool
  | some s => s ≠ ""
  | none => false

/-- JS `x || y` for strings: `y` when `x` is falsy (empty), else `x`. -/
def jsOr (x y : String) : String := if x = "" then y else x

/-- Character-level whitespace test standing for the JS `\s` class and
`String.prototype.trim` (space, tab, CR, LF). -/
def isWs (c : Char) : Bool := c = ' ' ∨ c = '\t' ∨ c = '\r' ∨ c = '\n'

/-- JS `String.prototype.trim`: drop whitespace from both ends. -/
def jsTrim (s : String) : String :=
  String.mk (((s.data.dropWhile isWs).reverse.dropWhile isWs).reverse)

/-- Split a character list at every occurrence of `c` (JS `split`). -/
def splitOnCharAux (c : Char) : List Char → List Char → List (List Char)
  | [], acc => [acc.reverse]
  | x :: xs, acc =>
    if x = c then acc.reverse :: splitOnCharAux c xs []
    else splitOnCharAux c xs (x :: acc)

/-- JS `s.split(c)` for a single-character separator. -/
def jsSplit (s : String) (c : Char) : List String :=
  (splitOnCharAux c s.data []).map String.mk

/-- JS `s.slice(0, n)`: the first `n` code units. -/
def jsSlice (s : String) (n : Nat) : String := String.mk (s.data.take n)

/-- JS `Array.prototype.join`. -/
def jsJoin (sep : String) (xs : List String) : String :=
  String.mk (List.intercalate sep.data (xs.map String.data))

/-- Substring test (used to state topic interpolation). -/
def containsSubstr (s pat : String) : Prop := pat.data <:+: s.data

instance (s pat : String) : Decidable (containsSubstr s pat) :=
  List.decidableInfix pat.data s.data

/-- A generated `{title, content}` pair (the transient GenerationResult). -/
structure GenerationResult where
  title : String
  content : String
  deriving DecidableEq, Repr

/-- The three paragraph templates of `generateFallback` in
`aiClient.js`; the topic is spliced in exactly where the JS template
literals splice it. -/
def fallbackParagraphs (topic : String) : List String :=
  ["In today's fast-paced landscape, " ++ topic ++
     " continues to shape how teams deliver value.",
   "Practitioners emphasize iterative learning, pragmatic tooling, and measurable outcomes as the best path to sustainable progress.",
   "Looking ahead, expect lightweight automation, sensible defaults, and a human-first perspective to remain central to successful " ++
     topic ++ " initiatives."]

/-- `generateFallback(topic)` from `aiClient.js`: the deterministic
fallback article. -/
def generateFallback (topic : String) : GenerationResult :=
  { title := "Fallback article on " ++ topic
    content := jsJoin "\n\n" (fallbackParagraphs topic) }

/-- A chat-completion `message` object (`content` optional). -/
structure Msg where
  content : Option String
  deriving DecidableEq, Repr

/-- One entry of a `choices` array (`message` / legacy `text` optional). -/
structure Choice where
  message : Option Msg
  text : Option String
  deriving DecidableEq, Repr

/-- The response-body shapes `normalizeGeneratedText` inspects: a falsy
body (`null`/`undefined`), a bare string, or an object with optional
`choices`, `content` and `text` fields. -/
inductive Resp
  | null
  | str (s : String)
  | obj (choices : Option (List Choice)) (content : Option String) (text : Option String)
  deriving DecidableEq, Repr

/-- The trailing generic-field checks of `normalizeGeneratedText`
(`response.content`, then `response.text`, else `null`). -/
def genericTail (content text : Option String) : Option String :=
  if optTruthy content then content
  else if optTruthy text then text
  else none

/-- `normalizeGeneratedText(response)` from `aiClient.js`, with the JS
truthiness tests made explicit.  The `choices` branch requires a
non-empty array; a choice without usable text falls through to the
generic checks, exactly as the JS control flow does. -/
def normalizeGeneratedText : Resp → Option String
  | .null => none
  | .str s => if s = "" then none else some s
  | .obj choices content text =>
    match choices with
    | some (c :: _) =>
      if optTruthy (c.message.bind Msg.content) then c.message.bind Msg.content
      else if optTruthy c.text then c.text
      else genericTail content text
    | _ => genericTail content text

/-- The outcome of one chat-completion POST for one candidate model:
a parsed response body, an HTTP error with a status code, a timeout
(`ECONNABORTED`, no status), or a network error (no status). -/
inductive AttemptOutcome
  | ok (data : Resp)
  | httpErr (status : Nat)
  | timeout
  | netErr
  deriving DecidableEq, Repr

/-- The `for (const model of uniqueModels)` retry loop of
`generateViaOpenRouter`, one outcome per candidate in order.  Returns the
first extracted truthy text (`break` on HTTP 401, advance otherwise) and
the number of chat-completion requests issued. -/
def runCandidates : List AttemptOutcome → Option String × Nat
  | [] => (none, 0)
  | .ok data :: rest =>
    (match normalizeGeneratedText data with
     | some t =>
       if t ≠ "" then (some t, 1)
       else ((runCandidates rest).1, (runCandidates rest).2 + 1)
     | none => ((runCandidates rest).1, (runCandidates rest).2 + 1))
  | .httpErr status :: rest =>
    if status = 401 then (none, 1)
    else ((runCandidates rest).1, (runCandidates rest).2 + 1)
  | .timeout :: rest => ((runCandidates rest).1, (runCandidates rest).2 + 1)
  | .netErr :: rest => ((runCandidates rest).1, (runCandidates rest).2 + 1)

/-- `generateViaOpenRouter(prompt)` as a function of its environment:
`token` is `OPENROUTER_API_KEY` (falsy when unset or empty), `tokenValid`
the result of `verifyToken`, `outcomes` the per-candidate network
outcomes.  Returns the extracted text (or `null`) together with the
number of chat-completion requests issued. -/
def generateViaOpenRouter (token : Option String) (tokenValid : Bool)
    (outcomes : List AttemptOutcome) : Option String × Nat :=
  if ¬ optTruthy token then (none, 0)
  else if ¬ tokenValid then (none, 0)
  else runCandidates outcomes

/-- `fallbackModel` from `aiClient.js`. -/
def fallbackModel : String := "meta-llama/llama-3.2-3b-instruct:free"

/-- `alternativeFreeModels` from `aiClient.js` (the five free-tier
fallback model identifiers, in source order). -/
def alternativeFreeModels : List String :=
  ["meta-llama/llama-3.2-3b-instruct:free",
   "meta-llama/llama-3.1-8b-instruct:free",
   "google/gemini-flash-1.5:free",
   "mistralai/mistral-7b-instruct:free",
   "qwen/qwen-2-7b-instruct:free"]

/-- `configuredModel = (process.env.AI_MODEL || '').trim() || fallbackModel`. -/
def configuredModel (envAiModel : Option String) : String :=
  jsOr (jsTrim (envAiModel.getD "")) fallbackModel

/-- The `modelsToTry` array built by `generateViaOpenRouter`: the
configured model, then the alternatives (filtered when the configured
model is itself one of them). -/
def modelsToTry (configured : String) : List String :=
  if alternativeFreeModels.contains configured then
    configured :: alternativeFreeModels.filter (fun m => m ≠ configured)
  else
    configured :: alternativeFreeModels

/-- Worker for `jsSetDedup`, carrying the set of already-seen elements. -/
def jsSetDedupAux (seen : List String) : List String → List String
  | [] => []
  | x :: xs =>
    if seen.contains x then jsSetDedupAux seen xs
    else x :: jsSetDedupAux (x :: seen) xs

/-- JS `[...new Set(xs)]`: remove duplicates keeping first occurrences,
preserving order. -/
def jsSetDedup (xs : List String) : List String := jsSetDedupAux [] xs

/-- The `uniqueModels` list actually iterated by the retry loop. -/
def uniqueModels (configured : String) : List String :=
  jsSetDedup (modelsToTry configured)

/-- `llmResult.trim().split('\n').filter(Boolean)` from `generateArticle`. -/
def jsLines (raw : String) : List String :=
  (jsSplit (jsTrim raw) '\n').filter (fun l => l ≠ "")

/-- `titleLine.replace(/^#+\s*/, '')`: strip one-or-more leading `#`
and any following whitespace; no change when the line does not start
with `#` (the regex then fails to match). -/
def stripHeading (s : String) : String :=
  match s.data with
  | '#' :: _ => String.mk ((s.data.dropWhile (fun c => c = '#')).dropWhile isWs)
  | _ => s

/-- `titleLine` of `generateArticle`: `lines[0] || ''`, heading markers
stripped, trimmed. -/
def titleLineOf (raw : String) : String :=
  jsTrim (stripHeading ((jsLines raw).headD ""))

/-- The title/content extraction of `generateArticle` applied to a truthy
`llmResult`: `titleLine.slice(0, 140) || 'New article on ...'` for the
title; the joined trimmed remaining lines — or the full trimmed raw text
when there are none — for the content. -/
def parseGenerated (topic raw : String) : GenerationResult :=
  { title := jsOr (jsSlice (titleLineOf raw) 140) ("New article on " ++ topic)
    content :=
      if ((jsLines raw).drop 1).length > 0 then jsTrim (jsJoin "\n" ((jsLines raw).drop 1))
      else jsTrim raw }

/-- The spec's own description of raw-text parsing (§4.2 step 6), stated
in the spec's words for comparison with `parseGenerated`: the first
non-empty line is the title, heading markers stripped and the result
truncated to 140 characters, a synthesized title when the first line is
empty after stripping; the remaining non-empty lines joined and trimmed
form the content, with the full trimmed raw text when none remain. -/
def specParseGenerated (topic raw : String) : GenerationResult :=
  { title :=
      if titleLineOf raw = "" then "New article on " ++ topic
      else jsSlice (titleLineOf raw) 140
    content :=
      match (jsLines raw).drop 1 with
      | [] => jsTrim raw
      | rest => jsTrim (jsJoin "\n" rest) }

/-- `generateArticle(topic)` from `aiClient.js`, as a function of the
environment (credential, verification result, per-candidate outcomes):
parse the LLM text when one was extracted, otherwise (and on a falsy
result) return the deterministic fallback. -/
def generateArticle (topic : String) (token : Option String)
    (tokenValid : Bool) (outcomes : List AttemptOutcome) : GenerationResult :=
  match (generateViaOpenRouter token tokenValid outcomes).1 with
  | some r => if r = "" then generateFallback topic else parseGenerated topic r
  | none => generateFallback topic

/-- A stored article row (`articles` table). -/
structure ArticleRow where
  id : Nat
  title : String
  content : String
  createdAt : String
  deriving DecidableEq, Repr

/-- The JSON bodies produced by the articles router and the health
endpoint: a single article, a list, an error object with `error` and an
optional `details` field, or a diagnostics payload. -/
inductive RespBody
  | article (a : ArticleRow)
  | articles (l : List ArticleRow)
  | errBody (error : String) (details : Option String)
  | diag (d : String)
  deriving DecidableEq, Repr

/-- `router.get('/')` from the articles router: status and JSON body as
a function of the store result. -/
def listHandler (r : Except String (List ArticleRow)) : Nat × RespBody :=
  match r with
  | .ok l => (200, .articles l)
  | .error e => (500, .errBody "Failed to fetch articles" (some e))

/-- `router.get('/:id')`: 404 `{error: 'Not found'}` when the store
returns no row, 500 with details on a store error. -/
def getByIdHandler (r : Except String (Option ArticleRow)) : Nat × RespBody :=
  match r with
  | .ok none => (404, .errBody "Not found" none)
  | .ok (some a) => (200, .article a)
  | .error e => (500, .errBody "Failed to fetch article" (some e))

/-- `router.post('/generate')`: 201 with the created row, 500 with
details when `createArticle` rejects. -/
def generateHandler (r : Except String ArticleRow) : Nat × RespBody :=
  match r with
  | .ok a => (201, .article a)
  | .error e => (500, .errBody "Failed to generate article" (some e))

/-- `router.get('/diagnostics/ai')`: 200 with the diagnostics payload,
500 with details when the diagnostic call itself throws. -/
def diagnosticsHandler (r : Except String String) : Nat × RespBody :=
  match r with
  | .ok d => (200, .diag d)
  | .error e => (500, .errBody "Failed to run diagnostics" (some e))

/-- The JSON body of `GET /health`. -/
structure HealthBody where
  ok : Bool
  db : String
  timestamp : Option String
  error : Option String
  deriving DecidableEq, Repr

/-- `app.get('/health')` from `index.js`: status and body as a function
of the `SELECT 1` probe result; probe errors are caught, never rethrown. -/
def healthHandler (probe : Except String Unit) (now : String) : Nat × HealthBody :=
  match probe with
  | .ok _ => (200, { ok := true, db := "connected", timestamp := some now, error := none })
  | .error e => (503, { ok := false, db := "disconnected", timestamp := none, error := some e })

/-- JS values a request body's `topic` field may carry. -/
inductive JsVal
  | vUndefined
  | vNull
  | vBool (b : Bool)
  | vNum (n : Int)
  | vStr (s : String)
  deriving DecidableEq, Repr

/-- JS truthiness of a `JsVal`. -/
def jsTruthy : JsVal → Bool
  | .vUndefined => false
  | .vNull => false
  | .vBool b => b
  | .vNum n => n ≠ 0
  | .vStr s => s ≠ ""

/-- The default topic of `router.post('/generate')` (also the default
parameter of `createArticle`). -/
def defaultTopic : String := "B2B SaaS and open-source Web3 infrastructure"

/-- `const topic = req.body?.topic || 'B2B SaaS and open-source Web3
infrastructure'`: `bodyTopic` is `none` when the body or the field is
absent. -/
def resolveTopic (bodyTopic : Option JsVal) : JsVal :=
  match bodyTopic with
  | some v => if jsTruthy v then v else .vStr defaultTopic
  | none => .vStr defaultTopic

/-- The three hand-authored sample articles inserted by `seedIfEmpty`
(title/content pairs, in source order). -/
def sampleArticles : List (String × String) :=
  [("Building Product-Led Growth in B2B SaaS",
    "Product-Led Growth (PLG) has become the dominant go-to-market strategy for modern B2B SaaS companies. Unlike traditional sales-led approaches, PLG focuses on delivering immediate value through the product itself, allowing users to experience core functionality before committing to a purchase. Successful PLG implementations require seamless onboarding flows, in-app guidance, and freemium models that showcase your product's unique value proposition. Key metrics to track include time-to-value, feature adoption rates, and conversion from free to paid tiers. Companies like Slack, Notion, and Figma have demonstrated that when done right, PLG can dramatically reduce customer acquisition costs while increasing organic growth through viral loops and word-of-mouth referrals."),
   ("Decentralized Storage Networks: The Foundation of Web3 Infrastructure",
    "Decentralized storage networks like IPFS, Arweave, and Filecoin are revolutionizing how data is stored and accessed on the internet. Unlike traditional cloud storage, these networks distribute data across thousands of nodes, eliminating single points of failure and reducing censorship risks. IPFS (InterPlanetary File System) uses content-addressing to create a distributed web where files are identified by their cryptographic hash rather than location. Arweave offers permanent storage through a novel consensus mechanism called Proof of Access, while Filecoin creates a marketplace for storage providers. These technologies are critical infrastructure for Web3 applications, enabling decentralized social networks, NFT marketplaces, and blockchain-based applications that require reliable, censorship-resistant data storage."),
   ("Customer Success Metrics That Drive B2B SaaS Retention",
    "In B2B SaaS, customer retention is the lifeblood of sustainable growth. While acquisition metrics get attention, retention metrics directly impact revenue and profitability. Key indicators include Net Revenue Retention (NRR), which measures expansion revenue from existing customers, and Customer Lifetime Value (LTV) to Customer Acquisition Cost (CAC) ratios. Product engagement scores, feature adoption rates, and time-to-first-value are leading indicators of churn risk. Successful SaaS companies implement health scoring systems that combine product usage, support ticket volume, and payment behavior to identify at-risk accounts early. Proactive outreach, personalized onboarding, and strategic account management can turn potential churn into expansion opportunities, transforming satisfied customers into advocates who drive referrals and case studies.")]

/-- `seedIfEmpty` from `articleService.js` on the store contents: insert
the three samples exactly when the `COUNT(*)` probe returns 0. -/
def seedIfEmpty (store : List (String × String)) : List (String × String) :=
  if store.length = 0 then store ++ sampleArticles else store

/-- Does a JSON body carry both an `error` summary and a `details`
message string? -/
def hasErrorAndDetails : RespBody → Prop
  | .errBody _ (some _) => True
  | _ => False

/-! ## Helper lemmas -/

theorem append_ne_empty_left (a b : String) (h : a ≠ "") : a ++ b ≠ "" := by
  intro hab
  apply h
  have hd := congrArg String.data hab
  rw [String.data_append] at hd
  rcases List.append_eq_nil.mp hd with ⟨ha, _⟩
  exact String.ext ha

theorem jsOr_ne_empty (x y : String) (hy : y ≠ "") : jsOr x y ≠ "" := by
  unfold jsOr
  split
  · exact hy
  · assumption

/-! ## C8 — health endpoint -/

/-- C8: `GET /health` answers 200 with `{ok: true, db: "connected",
timestamp}` exactly when the store probe succeeds and 503 with
`{ok: false, db: "disconnected", error}` exactly when it fails; the
handler is a total function of the probe result, so probe errors are
never rethrown. -/
theorem health_endpoint_spec :
    (∀ now : String, healthHandler (Except.ok ()) now =
      (200, { ok := true, db := "connected", timestamp := some now, error := none })) ∧
    (∀ (e : String) (now : String), healthHandler (Except.error e) now =
      (503, { ok := false, db := "disconnected", timestamp := none, error := some e })) ∧
    (∀ (probe : Except String Unit) (now : String),
      ((healthHandler probe now).1 = 200 ↔ probe = Except.ok ()) ∧
      ((healthHandler probe now).1 = 503 ↔ ∃ e, probe = Except.error e)) := by
  refine ⟨fun _ => rfl, fun _ _ => rfl, fun probe now => ?_⟩
  cases probe with
  | ok u => cases u; simp [healthHandler]
  | error e => simp [healthHandler]

/-! ## C9 — seeding -/

/-- C9: startup seeding inserts the three fixed sample articles exactly
when the store is empty, inserts nothing on a non-empty store, and is
idempotent. -/
theorem seedIfEmpty_spec :
    seedIfEmpty [] = sampleArticles ∧
    sampleArticles.length = 3 ∧
    (∀ s : List (String × String), s.length ≠ 0 → seedIfEmpty s = s) ∧
    (∀ s : List (String × String), seedIfEmpty (seedIfEmpty s) = seedIfEmpty s) := by
  refine ⟨rfl, rfl, fun s h => by simp [seedIfEmpty, h], fun s => ?_⟩
  by_cases h : s.length = 0
  · have hs : s = [] := List.length_eq_zero.mp h
    subst hs
    simp [seedIfEmpty, sampleArticles]
  · simp [seedIfEmpty, h]

/-- Witness for C9 at a one-row store. -/
theorem seedIfEmpty_spec_witness :
    seedIfEmpty [("t", "c")] = [("t", "c")] :=
  seedIfEmpty_spec.2.2.1 [("t", "c")] (by decide)

/-! ## C10 — topic defaulting -/

/-- C10: a `topic` field that is the empty string, `null`, `false` (or
any falsy value), or absent altogether resolves to the default topic, so
the topic handed to `createArticle` is never the empty string. -/
theorem generate_topic_defaulting :
    resolveTopic (some (.vStr "")) = .vStr defaultTopic ∧
    resolveTopic (some .vNull) = .vStr defaultTopic ∧
    resolveTopic (some (.vBool false)) = .vStr defaultTopic ∧
    resolveTopic none = .vStr defaultTopic ∧
    (∀ v : JsVal, jsTruthy v = false → resolveTopic (some v) = .vStr defaultTopic) ∧
    (∀ b : Option JsVal, resolveTopic b ≠ .vStr "") := by
  refine ⟨rfl, rfl, rfl, rfl, fun v hv => by simp [resolveTopic, hv], fun b => ?_⟩
  have hdef : defaultTopic ≠ "" := by decide
  cases b with
  | none =>
    intro h
    simp only [resolveTopic, JsVal.vStr.injEq] at h
    exact hdef h
  | some v =>
    intro h
    simp only [resolveTopic] at h
    by_cases hv : jsTruthy v = true
    · rw [if_pos hv] at h
      subst h
      simp [jsTruthy] at hv
    · rw [if_neg hv] at h
      simp only [JsVal.vStr.injEq] at h
      exact hdef h

/-- Witness for C10 at falsy and truthy concrete values. -/
theorem generate_topic_defaulting_witness :
    resolveTopic (some (.vNum 0)) = .vStr defaultTopic ∧
    resolveTopic (some (.vStr "DAOs")) ≠ .vStr "" :=
  ⟨generate_topic_defaulting.2.2.2.2.1 (.vNum 0) (by decide),
   generate_topic_defaulting.2.2.2.2.2 (some (.vStr "DAOs"))⟩

/-! ## C7 — error response shapes -/

/-- C7 as stated is false: the 404 response of `GET /api/articles/:id`
for an absent id is `{error: 'Not found'}` and carries no `details`
member. -/
theorem error_body_counterexample :
    getByIdHandler (Except.ok none) = (404, RespBody.errBody "Not found" none) ∧
    ¬ hasErrorAndDetails (getByIdHandler (Except.ok none)).2 :=
  ⟨rfl, fun h => h⟩

/-- C7 amended: every 500 response of the articles router is a JSON
object with both an `error` summary and a `details` message string; the
404 for an absent id carries only the `error` summary `"Not found"`,
with no `details`. -/
theorem error_body_spec :
    (∀ e : String,
      listHandler (Except.error e) = (500, .errBody "Failed to fetch articles" (some e)) ∧
      hasErrorAndDetails (listHandler (Except.error e)).2) ∧
    (∀ e : String,
      getByIdHandler (Except.error e) = (500, .errBody "Failed to fetch article" (some e)) ∧
      hasErrorAndDetails (getByIdHandler (Except.error e)).2) ∧
    (∀ e : String,
      generateHandler (Except.error e) = (500, .errBody "Failed to generate article" (some e)) ∧
      hasErrorAndDetails (generateHandler (Except.error e)).2) ∧
    (∀ e : String,
      diagnosticsHandler (Except.error e) = (500, .errBody "Failed to run diagnostics" (some e)) ∧
      hasErrorAndDetails (diagnosticsHandler (Except.error e)).2) ∧
    getByIdHandler (Except.ok none) = (404, .errBody "Not found" none) :=
  ⟨fun _ => ⟨rfl, trivial⟩, fun _ => ⟨rfl, trivial⟩, fun _ => ⟨rfl, trivial⟩,
   fun _ => ⟨rfl, trivial⟩, rfl⟩

/-! ## C2 — fallback article -/

set_option maxRecDepth 40000 in
/-- C2 as stated is false: the topic is not interpolated into each of
the three fallback paragraphs — with topic `"Web3"`, the second
paragraph does not contain the topic. -/
theorem fallback_paragraphs_counterexample :
    ¬ (∀ p ∈ fallbackParagraphs "Web3", containsSubstr p "Web3") := by
  decide

/-- C2 amended: fallback generation is a pure deterministic function of
the topic, returning title `"Fallback article on " ++ t` and a content of
exactly three paragraphs joined by blank lines, with the topic
interpolated into the first and third paragraphs; the second paragraph is
a fixed sentence. -/
theorem generateFallback_spec (t : String) :
    generateFallback t =
      { title := "Fallback article on " ++ t
        content := jsJoin "\n\n" (fallbackParagraphs t) } ∧
    (fallbackParagraphs t).length = 3 ∧
    containsSubstr ((fallbackParagraphs t).headD "") t ∧
    containsSubstr ((fallbackParagraphs t).getLastD "") t ∧
    (fallbackParagraphs t).getD 1 "" =
      "Practitioners emphasize iterative learning, pragmatic tooling, and measurable outcomes as the best path to sustainable progress." := by
  refine ⟨rfl, rfl, ?_, ?_, rfl⟩
  · exact ⟨"In today's fast-paced landscape, ".data,
      " continues to shape how teams deliver value.".data,
      by simp [fallbackParagraphs, String.data_append]⟩
  · exact ⟨"Looking ahead, expect lightweight automation, sensible defaults, and a human-first perspective to remain central to successful ".data,
      " initiatives.".data,
      by simp [fallbackParagraphs, String.data_append]⟩

/-! ## C1 — generateArticle totality and title/content shape -/

theorem jsSlice_length_le (s : String) (n : Nat) : (jsSlice s n).length ≤ n := by
  show (s.data.take n).length ≤ n
  exact List.length_take_le n s.data

theorem jsJoin_three (a b c : String) :
    jsJoin "\n\n" [a, b, c] = a ++ "\n\n" ++ b ++ "\n\n" ++ c := by
  apply String.ext
  show List.intercalate "\n\n".data [a.data, b.data, c.data] = _
  simp [List.intercalate, List.intersperse, String.data_append]

theorem generateFallback_title (t : String) :
    (generateFallback t).title = "Fallback article on " ++ t := rfl

theorem generateFallback_title_ne_empty (t : String) :
    (generateFallback t).title ≠ "" :=
  append_ne_empty_left _ _ (by decide)

theorem generateFallback_content_ne_empty (t : String) :
    (generateFallback t).content ≠ "" := by
  show jsJoin "\n\n" (fallbackParagraphs t) ≠ ""
  rw [show fallbackParagraphs t =
    ["In today's fast-paced landscape, " ++ t ++ " continues to shape how teams deliver value.",
     "Practitioners emphasize iterative learning, pragmatic tooling, and measurable outcomes as the best path to sustainable progress.",
     "Looking ahead, expect lightweight automation, sensible defaults, and a human-first perspective to remain central to successful " ++ t ++ " initiatives."] from rfl,
    jsJoin_three]
  apply append_ne_empty_left
  apply append_ne_empty_left
  apply append_ne_empty_left
  apply append_ne_empty_left
  apply append_ne_empty_left
  apply append_ne_empty_left
  decide

theorem parseGenerated_title_def (topic raw : String) :
    (parseGenerated topic raw).title =
      jsOr (jsSlice (titleLineOf raw) 140) ("New article on " ++ topic) := rfl

theorem parseGenerated_title_ne_empty (topic raw : String) :
    (parseGenerated topic raw).title ≠ "" := by
  rw [parseGenerated_title_def]
  exact jsOr_ne_empty _ _ (append_ne_empty_left _ _ (by decide))

theorem parseGenerated_title_bound (topic raw : String) :
    (parseGenerated topic raw).title.length ≤ 140 ∨
    (parseGenerated topic raw).title = "New article on " ++ topic := by
  rw [parseGenerated_title_def]
  by_cases h : jsSlice (titleLineOf raw) 140 = ""
  · right
    rw [jsOr, if_pos h]
  · left
    rw [jsOr, if_neg h]
    exact jsSlice_length_le _ 140

theorem generateArticle_title_ne_empty (topic : String) (token : Option String)
    (valid : Bool) (outcomes : List AttemptOutcome) :
    (generateArticle topic token valid outcomes).title ≠ "" := by
  unfold generateArticle
  cases h : (generateViaOpenRouter token valid outcomes).1 with
  | none => exact generateFallback_title_ne_empty topic
  | some r =>
    show (if r = "" then generateFallback topic else parseGenerated topic r).title ≠ ""
    by_cases hr : r = ""
    · rw [if_pos hr]
      exact generateFallback_title_ne_empty topic
    · rw [if_neg hr]
      exact parseGenerated_title_ne_empty topic r

set_option maxRecDepth 40000 in
/-- C1 as stated is false at two concrete inputs: with a 121-character
topic and no credential, the fallback title has 141 characters (the
140-character bound does not apply to the fallback title); and with an
extracted LLM text consisting of a single space, the returned content is
the empty string. -/
theorem generateArticle_counterexample :
    140 < (generateArticle (String.mk (List.replicate 121 'a')) none true []).title.length ∧
    (generateArticle "x" (some "k") true [AttemptOutcome.ok (Resp.str " ")]).content = "" := by
  exact ⟨by decide, by decide⟩

/-- C1 amended: `generateArticle` is a total function that always
returns a `{title, content}` pair with a non-empty title; when no
credential is configured it performs no request and returns the fallback
article, whose title is exactly `"Fallback article on " ++ topic` and
whose content is non-empty; the 140-character bound applies to titles
parsed from generated text (the fallback and synthesized titles grow
with the topic instead of being truncated). -/
theorem generateArticle_spec :
    (∀ (topic : String) (token : Option String) (valid : Bool)
      (outcomes : List AttemptOutcome),
      (generateArticle topic token valid outcomes).title ≠ "") ∧
    (∀ (topic : String) (valid : Bool) (outcomes : List AttemptOutcome),
      generateViaOpenRouter none valid outcomes = (none, 0) ∧
      generateArticle topic none valid outcomes = generateFallback topic) ∧
    (∀ topic : String, (generateFallback topic).title = "Fallback article on " ++ topic) ∧
    (∀ topic : String, (generateFallback topic).content ≠ "") ∧
    (∀ topic raw : String, (parseGenerated topic raw).title.length ≤ 140 ∨
      (parseGenerated topic raw).title = "New article on " ++ topic) :=
  ⟨generateArticle_title_ne_empty,
   fun _ _ _ => ⟨rfl, rfl⟩,
   generateFallback_title,
   generateFallback_content_ne_empty,
   parseGenerated_title_bound⟩

/-! ## C4 — candidate model list -/

theorem jsSetDedupAux_eq_self (l : List String) :
    ∀ seen : List String, l.Nodup → (∀ x ∈ l, x ∉ seen) → jsSetDedupAux seen l = l := by
  induction l with
  | nil => intro seen _ _; rfl
  | cons x xs ih =>
    intro seen hnd hdisj
    rw [jsSetDedupAux]
    have hx : ¬ seen.contains x = true := by
      intro hc
      exact hdisj x (List.mem_cons_self x xs) (by simpa using hc)
    rw [if_neg hx]
    congr 1
    apply ih (x :: seen) (List.nodup_cons.mp hnd).2
    intro y hy hmem
    rcases List.mem_cons.mp hmem with h1 | h2
    · exact (List.nodup_cons.mp hnd).1 (h1 ▸ hy)
    · exact hdisj y (List.mem_cons_of_mem x hy) h2

theorem alternativeFreeModels_nodup : alternativeFreeModels.Nodup := by decide

theorem uniqueModels_eq (m : String) :
    uniqueModels m = m :: alternativeFreeModels.filter (fun x => x ≠ m) := by
  unfold uniqueModels modelsToTry jsSetDedup
  by_cases hm : alternativeFreeModels.contains m = true
  · rw [if_pos hm, jsSetDedupAux, if_neg (by simp)]
    congr 1
    apply jsSetDedupAux_eq_self _ _ (alternativeFreeModels_nodup.filter _)
    intro x hx
    have : x ≠ m := by
      have := List.mem_filter.mp hx
      simpa using this.2
    simpa using this
  · rw [if_neg hm, jsSetDedupAux, if_neg (by simp)]
    have hmem : m ∉ alternativeFreeModels := by
      intro hmm
      exact hm (by simpa using hmm)
    have hfil : alternativeFreeModels.filter (fun x => x ≠ m) = alternativeFreeModels := by
      apply List.filter_eq_self.mpr
      intro a ha
      have ham : a ≠ m := fun he => hmem (he ▸ ha)
      simpa using ham
    rw [hfil]
    congr 1
    apply jsSetDedupAux_eq_self _ _ alternativeFreeModels_nodup
    intro x hx
    have hxm : x ≠ m := fun he => hmem (he ▸ hx)
    simpa using hxm

/-- C4: for every configured model `m`, the candidate list attempted by
the retry loop is exactly `m` followed by the alternative free-tier
models different from `m`, in order: it starts with `m`, has no
duplicates, and contains every alternative free-tier model. -/
theorem uniqueModels_spec (m : String) :
    uniqueModels m = m :: alternativeFreeModels.filter (fun x => x ≠ m) ∧
    (uniqueModels m).Nodup ∧
    (uniqueModels m).headD "" = m ∧
    ∀ a ∈ alternativeFreeModels, a ∈ uniqueModels m := by
  refine ⟨uniqueModels_eq m, ?_, ?_, ?_⟩
  · rw [uniqueModels_eq m]
    apply List.nodup_cons.mpr
    constructor
    · intro hm
      have := List.mem_filter.mp hm
      simp at this
    · exact alternativeFreeModels_nodup.filter _
  · rw [uniqueModels_eq m]
    rfl
  · intro a ha
    rw [uniqueModels_eq m]
    by_cases ham : a = m
    · exact ham ▸ List.mem_cons_self _ _
    · exact List.mem_cons_of_mem _ (List.mem_filter.mpr ⟨ha, by simpa using ham⟩)

/-! ## C3 — retry-loop semantics -/

/-- A per-candidate failure after which the loop proceeds to the next
candidate: an unusable response shape, a non-401 HTTP error (rate limit,
bad request, not found, server error), a timeout or a network error. -/
def attemptAdvances : AttemptOutcome → Prop
  | .ok d => normalizeGeneratedText d = none
  | .httpErr s => s ≠ 401
  | .timeout => True
  | .netErr => True

theorem runCandidates_all_fail (outcomes : List AttemptOutcome)
    (h : ∀ o ∈ outcomes, attemptAdvances o) :
    (runCandidates outcomes).1 = none := by
  induction outcomes with
  | nil => rfl
  | cons o rest ih =>
    have ho := h o (List.mem_cons_self o rest)
    have hrest := ih fun x hx => h x (List.mem_cons_of_mem o hx)
    cases o with
    | ok d =>
      have hd : normalizeGeneratedText d = none := ho
      simp [runCandidates, hd, hrest]
    | httpErr s =>
      have hs : s ≠ 401 := ho
      simp [runCandidates, hs, hrest]
    | timeout => simp [runCandidates, hrest]
    | netErr => simp [runCandidates, hrest]

/-- A chat-completion response carrying `choices[0].message.content = t`. -/
def chatResp (t : String) : Resp :=
  Resp.obj (some [{ message := some { content := some t }, text := none }]) none none

/-- C3: the retry loop returns the first candidate's extractable text
immediately — after two rate-limited candidates and a successful third it
returns the third text having issued exactly three requests, whatever
candidates remain; an unauthorized (401) response stops the loop after a
single request and the fallback article is returned; every other failure
(non-401 status, timeout, network error, unusable response shape)
advances to the next candidate; and when every candidate fails the
fallback article is returned. -/
theorem retry_loop_spec :
    (∀ (t : String) (rest : List AttemptOutcome), t ≠ "" →
      runCandidates (.httpErr 429 :: .httpErr 429 :: .ok (chatResp t) :: rest) =
        (some t, 3)) ∧
    (∀ (topic tok : String) (rest : List AttemptOutcome), tok ≠ "" →
      generateViaOpenRouter (some tok) true (.httpErr 401 :: rest) = (none, 1) ∧
      generateArticle topic (some tok) true (.httpErr 401 :: rest) = generateFallback topic) ∧
    (∀ (s : Nat) (rest : List AttemptOutcome), s ≠ 401 →
      runCandidates (.httpErr s :: rest) = ((runCandidates rest).1, (runCandidates rest).2 + 1)) ∧
    (∀ rest : List AttemptOutcome,
      runCandidates (.timeout :: rest) = ((runCandidates rest).1, (runCandidates rest).2 + 1)) ∧
    (∀ rest : List AttemptOutcome,
      runCandidates (.netErr :: rest) = ((runCandidates rest).1, (runCandidates rest).2 + 1)) ∧
    (∀ (d : Resp) (rest : List AttemptOutcome), normalizeGeneratedText d = none →
      runCandidates (.ok d :: rest) = ((runCandidates rest).1, (runCandidates rest).2 + 1)) ∧
    (∀ (topic tok : String) (outcomes : List AttemptOutcome), tok ≠ "" →
      (∀ o ∈ outcomes, attemptAdvances o) →
      generateArticle topic (some tok) true outcomes = generateFallback topic) := by
  refine ⟨?_, ?_, ?_, fun _ => rfl, fun _ => rfl, ?_, ?_⟩
  · intro t rest ht
    simp [runCandidates, chatResp, normalizeGeneratedText, optTruthy, ht]
  · intro topic tok rest htok
    constructor
    · simp [generateViaOpenRouter, optTruthy, htok, runCandidates]
    · simp [generateArticle, generateViaOpenRouter, optTruthy, htok, runCandidates]
  · intro s rest hs
    simp [runCandidates, hs]
  · intro d rest hd
    simp [runCandidates, hd]
  · intro topic tok outcomes htok hall
    have h1 : (runCandidates outcomes).1 = none := runCandidates_all_fail outcomes hall
    simp [generateArticle, generateViaOpenRouter, optTruthy, htok, h1]

/-- Witness for C3: the concrete three-candidate scenario and a concrete
401 stop. -/
theorem retry_loop_spec_witness :
    runCandidates [.httpErr 429, .httpErr 429, .ok (chatResp "Hi"), .netErr] =
      (some "Hi", 3) ∧
    generateArticle "DAOs" (some "k") true [.httpErr 401, .netErr] =
      generateFallback "DAOs" :=
  ⟨retry_loop_spec.1 "Hi" [.netErr] (by decide),
   (retry_loop_spec.2.1 "DAOs" "k" [.netErr] (by decide)).2⟩

/-! ## C6 — response-text normalization priority -/

/-- Extractor 1 of the spec's priority list: `choices[0].message.content`. -/
def chatMessageContent : Resp → Option String
  | .obj (some (c :: _)) _ _ =>
    match c.message with
    | some m =>
      match m.content with
      | some mc => if mc = "" then none else some mc
      | none => none
    | none => none
  | _ => none

/-- Extractor 2: legacy completion text `choices[0].text`. -/
def legacyChoiceText : Resp → Option String
  | .obj (some (c :: _)) _ _ =>
    match c.text with
    | some t => if t = "" then none else some t
    | none => none
  | _ => none

/-- Extractor 3: a bare string body. -/
def bareStringBody : Resp → Option String
  | .str s => if s = "" then none else some s
  | _ => none

/-- Extractor 4: a generic top-level `content` field. -/
def genericContentField : Resp → Option String
  | .obj _ (some c) _ => if c = "" then none else some c
  | _ => none

/-- Extractor 5: a generic top-level `text` field. -/
def genericTextField : Resp → Option String
  | .obj _ _ (some t) => if t = "" then none else some t
  | _ => none

/-- The first applicable extractor of a priority list. -/
def firstExtract : List (Option String) → Option String
  | [] => none
  | some s :: _ => some s
  | none :: rest => firstExtract rest

theorem firstExtract_none_cons (l : List (Option String)) :
    firstExtract (none :: l) = firstExtract l := rfl

theorem genericTail_eq (ch : Option (List Choice)) (co te : Option String) :
    genericTail co te =
      firstExtract [genericContentField (.obj ch co te), genericTextField (.obj ch co te)] := by
  rcases co with _ | c
  · rcases te with _ | t
    · rfl
    · by_cases ht : t = "" <;>
        simp [genericTail, optTruthy, genericContentField, genericTextField, firstExtract, ht]
  · by_cases hc : c = ""
    · rcases te with _ | t
      · simp [genericTail, optTruthy, genericContentField, genericTextField, firstExtract, hc]
      · by_cases ht : t = "" <;>
          simp [genericTail, optTruthy, genericContentField, genericTextField, firstExtract, hc, ht]
    · simp [genericTail, optTruthy, genericContentField, genericTextField, firstExtract, hc]

theorem normalize_choice_tail (ch : Option (List Choice)) (ctext co te : Option String) :
    (if optTruthy ctext then ctext else genericTail co te) =
      firstExtract
        [(match ctext with | some t => if t = "" then none else some t | none => none),
         none, genericContentField (.obj ch co te), genericTextField (.obj ch co te)] := by
  rcases ctext with _ | t
  · simpa [optTruthy, firstExtract] using genericTail_eq ch co te
  · by_cases ht : t = ""
    · simpa [optTruthy, firstExtract, ht] using genericTail_eq ch co te
    · simp [optTruthy, firstExtract, ht]

theorem normalize_eq_firstExtract (r : Resp) :
    normalizeGeneratedText r =
      firstExtract [chatMessageContent r, legacyChoiceText r, bareStringBody r,
        genericContentField r, genericTextField r] := by
  cases r with
  | null => rfl
  | str s =>
    by_cases hs : s = "" <;>
      simp [normalizeGeneratedText, chatMessageContent, legacyChoiceText, bareStringBody,
        genericContentField, genericTextField, firstExtract, hs]
  | obj choices content text =>
    rcases choices with _ | cl
    · rw [show normalizeGeneratedText (Resp.obj none content text) =
          genericTail content text from rfl,
        show chatMessageContent (Resp.obj none content text) = none from rfl,
        show legacyChoiceText (Resp.obj none content text) = none from rfl,
        show bareStringBody (Resp.obj none content text) = none from rfl,
        firstExtract_none_cons, firstExtract_none_cons, firstExtract_none_cons]
      exact genericTail_eq none content text
    · rcases cl with _ | ⟨⟨msg, ctext⟩, cs⟩
      · rw [show normalizeGeneratedText (Resp.obj (some []) content text) =
            genericTail content text from rfl,
          show chatMessageContent (Resp.obj (some []) content text) = none from rfl,
          show legacyChoiceText (Resp.obj (some []) content text) = none from rfl,
          show bareStringBody (Resp.obj (some []) content text) = none from rfl,
          firstExtract_none_cons, firstExtract_none_cons, firstExtract_none_cons]
        exact genericTail_eq (some []) content text
      · rcases msg with _ | ⟨mc⟩
        · rw [show normalizeGeneratedText
              (Resp.obj (some ({ message := none, text := ctext } :: cs)) content text) =
              (if optTruthy ctext then ctext else genericTail content text) from rfl,
            show chatMessageContent
              (Resp.obj (some ({ message := none, text := ctext } :: cs)) content text) =
              none from rfl,
            show legacyChoiceText
              (Resp.obj (some ({ message := none, text := ctext } :: cs)) content text) =
              (match ctext with | some t => if t = "" then none else some t | none => none)
              from rfl,
            show bareStringBody
              (Resp.obj (some ({ message := none, text := ctext } :: cs)) content text) =
              none from rfl,
            firstExtract_none_cons]
          exact normalize_choice_tail _ ctext content text
        · rcases mc with _ | s
          · rw [show normalizeGeneratedText
                (Resp.obj (some ({ message := some { content := none }, text := ctext } :: cs))
                  content text) =
                (if optTruthy ctext then ctext else genericTail content text) from rfl,
              show chatMessageContent
                (Resp.obj (some ({ message := some { content := none }, text := ctext } :: cs))
                  content text) = none from rfl,
              show legacyChoiceText
                (Resp.obj (some ({ message := some { content := none }, text := ctext } :: cs))
                  content text) =
                (match ctext with | some t => if t = "" then none else some t | none => none)
                from rfl,
              show bareStringBody
                (Resp.obj (some ({ message := some { content := none }, text := ctext } :: cs))
                  content text) = none from rfl,
              firstExtract_none_cons]
            exact normalize_choice_tail _ ctext content text
          · by_cases hs : s = ""
            · subst hs
              rw [show normalizeGeneratedText
                  (Resp.obj (some ({ message := some { content := some "" }, text := ctext } :: cs))
                    content text) =
                  (if optTruthy ctext then ctext else genericTail content text) from rfl,
                show chatMessageContent
                  (Resp.obj (some ({ message := some { content := some "" }, text := ctext } :: cs))
                    content text) = none from rfl,
                show legacyChoiceText
                  (Resp.obj (some ({ message := some { content := some "" }, text := ctext } :: cs))
                    content text) =
                  (match ctext with | some t => if t = "" then none else some t | none => none)
                  from rfl,
                show bareStringBody
                  (Resp.obj (some ({ message := some { content := some "" }, text := ctext } :: cs))
                    content text) = none from rfl,
                firstExtract_none_cons]
              exact normalize_choice_tail _ ctext content text
            · rw [show normalizeGeneratedText
                  (Resp.obj (some ({ message := some { content := some s }, text := ctext } :: cs))
                    content text) =
                  (if optTruthy (some s) then some s
                   else if optTruthy ctext then ctext else genericTail content text) from rfl,
                show chatMessageContent
                  (Resp.obj (some ({ message := some { content := some s }, text := ctext } :: cs))
                    content text) = (if s = "" then none else some s) from rfl]
              simp [optTruthy, hs, firstExtract]

/-- C6: `normalizeGeneratedText` extracts text in exactly this priority
order: chat-completion message content, legacy completion text, bare
string body, generic `content` field, generic `text` field; when none
applies it yields no text, and such a response counts as a failure for
that candidate (the loop advances past it). -/
theorem normalize_priority_spec :
    (∀ r : Resp, normalizeGeneratedText r =
      firstExtract [chatMessageContent r, legacyChoiceText r, bareStringBody r,
        genericContentField r, genericTextField r]) ∧
    (∀ (r : Resp) (rest : List AttemptOutcome), normalizeGeneratedText r = none →
      runCandidates (.ok r :: rest) = ((runCandidates rest).1, (runCandidates rest).2 + 1)) :=
  ⟨normalize_eq_firstExtract, fun _ rest h => by simp [runCandidates, h]⟩

/-- Witness for C6: a response with no extractable field counts as a
failed candidate. -/
theorem normalize_priority_spec_witness :
    runCandidates [.ok (Resp.obj none none none)] = (none, 1) :=
  normalize_priority_spec.2 (Resp.obj none none none) [] rfl

/-! ## C5 — parsing of successful raw text -/

theorem jsSlice_eq_empty_iff (s : String) : jsSlice s 140 = "" ↔ s = "" := by
  constructor
  · intro h
    have hd := congrArg String.data h
    rcases List.take_eq_nil_iff.mp hd with h140 | hnil
    · exact absurd h140 (by decide)
    · exact String.ext hnil
  · intro h
    subst h
    rfl

theorem parseGenerated_content_def (topic raw : String) :
    (parseGenerated topic raw).content =
      if ((jsLines raw).drop 1).length > 0 then jsTrim (jsJoin "\n" ((jsLines raw).drop 1))
      else jsTrim raw := rfl

theorem specParse_content_def (topic raw : String) :
    (specParseGenerated topic raw).content =
      match (jsLines raw).drop 1 with
      | [] => jsTrim raw
      | rest => jsTrim (jsJoin "\n" rest) := rfl

theorem genResult_ext (a b : GenerationResult)
    (h1 : a.title = b.title) (h2 : a.content = b.content) : a = b := by
  cases a
  cases b
  simp_all

theorem parseGenerated_eq_spec (topic raw : String) :
    parseGenerated topic raw = specParseGenerated topic raw := by
  apply genResult_ext
  · rw [parseGenerated_title_def]
    show _ = if titleLineOf raw = "" then "New article on " ++ topic
      else jsSlice (titleLineOf raw) 140
    by_cases h : titleLineOf raw = ""
    · rw [if_pos h, jsOr, if_pos (by rw [h]; rfl)]
    · rw [if_neg h, jsOr, if_neg (fun hc => h ((jsSlice_eq_empty_iff _).mp hc))]
  · rw [parseGenerated_content_def, specParse_content_def]
    cases hd : (jsLines raw).drop 1 with
    | nil => rfl
    | cons x xs => simp

/-- C5: the source's parsing of successful raw text agrees exactly with
the spec's description (first non-empty line stripped of heading markers
and truncated to 140 characters as the title, synthesized title when
empty after stripping, remaining non-empty lines joined and trimmed as
the content, full trimmed raw text when none remain), and the concrete
example holds: `"# Hello\nWorld"` yields title `"Hello"` and content
`"World"`. -/
theorem parse_spec :
    (∀ topic raw : String, parseGenerated topic raw = specParseGenerated topic raw) ∧
    (∀ topic : String, parseGenerated topic "# Hello\nWorld" =
      { title := "Hello", content := "World" }) := by
  refine ⟨parseGenerated_eq_spec, fun topic => genResult_ext _ _ ?_ ?_⟩
  · rw [parseGenerated_title_def,
      show jsSlice (titleLineOf "# Hello\nWorld") 140 = "Hello" from by decide,
      jsOr, if_neg (by decide)]
  · rw [parseGenerated_content_def,
      show (jsLines "# Hello\nWorld").drop 1 = ["World"] from by decide]
    decide
